import Mathlib

/-!
# SistemaPQRSD — verification of the case-number core

Shallow embedding, in Lean 4, of the case-number generation and
uniqueness-under-concurrency core of the SistemaPQRSD repository
(`app/services/caso.py`, `db_models.py`, `app/schemas/caso.py`,
`enums.py`, and the `e78cd4d5ef2d` migration), together with theorems
settling the frozen claims about it.

Conventions of the embedding:
* Python `str` becomes Lean `String`; where proofs need to look inside a
  string we work on its `List Char`.
* Python `int` becomes `Nat` (all integers involved — sequence numbers,
  years, limits — are non-negative in the source).
* The relational store becomes an explicit `List Caso` (the `casos`
  table), threaded through the operations.
* Wall-clock inputs (`datetime.now().year`, `datetime.now()`) become
  explicit parameters.
* Fallible operations return `Except Nat α` or a result inductive; the
  `Nat` is the HTTP status code of the `HTTPException` the source raises.
-/

/-- `enums.py` — `TipoCaso`: the five PQRSD case types. -/
inductive TipoCaso where
  | PETICION
  | QUEJA
  | RECLAMO
  | SUGERENCIA
  | DENUNCIA
deriving DecidableEq, Repr

/-- `enums.py` — `EstadoCaso`: the four case statuses. -/
inductive EstadoCaso where
  | RECIBIDO
  | EN_PROCESO
  | RESUELTO
  | CERRADO
deriving DecidableEq, Repr

/-! ## Decimal rendering and parsing

Python renders numbers with `str`/format specifiers and parses them with
`int`.  We model decimal rendering of a `Nat` by a structurally
recursive, kernel-reducible function (fuel bounded by the number
itself), and decimal parsing on all-digit strings.  `int()` additionally
accepts signs and surrounding whitespace; every string parsed in this
development comes from splitting a formatted case number, where the two
models agree. -/

/-- The decimal digit character for a digit value `d < 10`. -/
def digitoChar : Nat → Char
  | 0 => '0' | 1 => '1' | 2 => '2' | 3 => '3' | 4 => '4'
  | 5 => '5' | 6 => '6' | 7 => '7' | 8 => '8' | 9 => '9'
  | _ => '?'

/-- Most-significant-first decimal digits of `n`; `fuel ≥ n` suffices,
and `n = 0` yields `[]`. -/
def digitosAux : Nat → Nat → List Char
  | 0, _ => []
  | fuel + 1, n =>
    if n = 0 then []
    else digitosAux fuel (n / 10) ++ [digitoChar (n % 10)]

/-- Decimal digit list of `n`, as Python's `str(n)` renders it. -/
def digitosDe (n : Nat) : List Char :=
  if n = 0 then ['0'] else digitosAux n n

/-- Python `str(n)` for a non-negative integer. -/
def natADecimal (n : Nat) : String :=
  String.mk (digitosDe n)

/-- The character list behind `f"{n:04d}"`: zero-pad to width 4. -/
def relleno4 (n : Nat) : List Char :=
  List.replicate (4 - (digitosDe n).length) '0' ++ digitosDe n

/-- Python `f"{n:04d}"`: zero-pad to width 4, widening beyond 9999. -/
def formatoCuatroDigitos (n : Nat) : String :=
  String.mk (relleno4 n)

/-- Python `int(s)` restricted to non-empty all-digit strings (the only
shape produced by splitting a formatted case number). -/
def decimalANat (s : String) : Option Nat :=
  if s.toList ≠ [] ∧ s.toList.all Char.isDigit then
    some (s.toList.foldl (fun acc c => 10 * acc + (c.toNat - 48)) 0)
  else none

/-- Python `hay.split(sep)` for a one-character separator: splits into
the (possibly empty) chunks between occurrences of `sep`. -/
def dividirEn (sep : Char) : List Char → List (List Char)
  | [] => [[]]
  | c :: resto =>
    match dividirEn sep resto with
    | [] => if c = sep then [[], []] else [[c]]
    | g :: gs => if c = sep then [] :: g :: gs else (c :: g) :: gs

/-! ## Case Number Formatter — `app/services/caso.py`, `formatear_numero_caso` -/

/-- The `prefijos` table of `formatear_numero_caso` (and its copy in
`app/schemas/caso.py` `CasoResponse.from_dict`). -/
def prefijos : TipoCaso → String
  | .PETICION => "PET"
  | .QUEJA => "QUE"
  | .RECLAMO => "REC"
  | .SUGERENCIA => "SUG"
  | .DENUNCIA => "DEN"

/-- `formatear_numero_caso(tipo, numero_caso, anio)`:
`f"{prefijo}-{anio}-{numero_caso:04d}"`. -/
def formatear_numero_caso (tipo : TipoCaso) (numero_caso : Nat) (anio : Nat) : String :=
  prefijos tipo ++ "-" ++ natADecimal anio ++ "-" ++ formatoCuatroDigitos numero_caso

/-! ## Case number parsing — `app/services/caso.py`, `parsear_numero_caso` -/

/-- The `prefijos_inverso` table of `parsear_numero_caso`. -/
def prefijosInverso : String → Option TipoCaso
  | "PET" => some .PETICION
  | "QUE" => some .QUEJA
  | "REC" => some .RECLAMO
  | "SUG" => some .SUGERENCIA
  | "DEN" => some .DENUNCIA
  | _ => none

/-- `parsear_numero_caso(numero_caso_completo)`: split on `'-'`, demand
exactly three parts, map the first through `prefijos_inverso` and parse
the other two as integers; any failure raises HTTP 400. -/
def parsear_numero_caso (numero_caso_completo : String) :
    Except Nat (TipoCaso × Nat × Nat) :=
  match (dividirEn '-' numero_caso_completo.toList).map String.mk with
  | [p, a, n] =>
    match prefijosInverso p, decimalANat a, decimalANat n with
    | some tipo, some anio, some numero => .ok (tipo, anio, numero)
    | _, _, _ => .error 400
  | _ => .error 400

/-- The spec's regex `^[A-Z]{3}-\d{4}-\d{4}$`, as a decidable predicate:
exactly three `'-'`-separated segments, the first three uppercase ASCII
letters, the other two four decimal digits each.  (Equivalent to the
anchored regex because `'-'` belongs to neither character class.) -/
def coincidePatronNumeroCaso (s : String) : Bool :=
  match dividirEn '-' s.toList with
  | [a, b, c] =>
    a.length == 3 && a.all (fun ch => 'A' ≤ ch && ch ≤ 'Z') &&
    b.length == 4 && b.all Char.isDigit &&
    c.length == 4 && c.all Char.isDigit
  | _ => false

section RenderLemmas

/-- Digit characters rendered for values `< 10` are decimal digits. -/
theorem digitoChar_isDigit {d : Nat} (h : d < 10) : (digitoChar d).isDigit = true := by
  interval_cases d <;> decide

/-- Digit characters decode back to their value. -/
theorem digitoChar_toNat {d : Nat} (h : d < 10) : (digitoChar d).toNat - 48 = d := by
  interval_cases d <;> decide

/-- Digit characters are never the separator `'-'`. -/
theorem digitoChar_ne_guion {d : Nat} (h : d < 10) : digitoChar d ≠ '-' := by
  interval_cases d <;> decide

theorem digitosAux_all_digits : ∀ fuel n, (digitosAux fuel n).all Char.isDigit = true := by
  intro fuel
  induction fuel with
  | zero => intro n; rfl
  | succ fuel ih =>
    intro n
    simp only [digitosAux]
    split
    · rfl
    · rw [List.all_append, ih (n / 10)]
      simp [digitoChar_isDigit (Nat.mod_lt n (by norm_num))]

theorem digitosDe_all_digits (n : Nat) : (digitosDe n).all Char.isDigit = true := by
  unfold digitosDe
  split
  · rfl
  · exact digitosAux_all_digits n n

/-- Folding the decimal-parse step over the rendered digits of `n`
recovers `n` (with the accumulator shifted by the digit count). -/
theorem digitosAux_foldl : ∀ fuel n, n ≤ fuel → ∀ acc,
    (digitosAux fuel n).foldl (fun acc c => 10 * acc + (c.toNat - 48)) acc
      = acc * 10 ^ (digitosAux fuel n).length + n := by
  intro fuel
  induction fuel with
  | zero => intro n hn acc; interval_cases n; simp [digitosAux]
  | succ fuel ih =>
    intro n hn acc
    simp only [digitosAux]
    split
    · simp_all
    · rename_i hne
      have hdiv : n / 10 ≤ fuel := by
        have : n / 10 < n := Nat.div_lt_self (Nat.pos_of_ne_zero hne) (by norm_num)
        omega
      rw [List.foldl_append, ih (n / 10) hdiv acc]
      simp only [List.foldl_cons, List.foldl_nil, List.length_append, List.length_cons,
        List.length_nil]
      rw [digitoChar_toNat (Nat.mod_lt n (by norm_num))]
      have := Nat.div_add_mod n 10
      ring_nf
      omega

/-- `n` is bounded by `10 ^ (number of rendered digits)`. -/
theorem digitosAux_lt_pow : ∀ fuel n, n ≤ fuel → n < 10 ^ (digitosAux fuel n).length := by
  intro fuel
  induction fuel with
  | zero => intro n hn; interval_cases n; simp [digitosAux]
  | succ fuel ih =>
    intro n hn
    simp only [digitosAux]
    split
    · simp_all
    · rename_i hne
      have hdiv : n / 10 ≤ fuel := by
        have : n / 10 < n := Nat.div_lt_self (Nat.pos_of_ne_zero hne) (by norm_num)
        omega
      have h1 := ih (n / 10) hdiv
      simp only [List.length_append, List.length_cons, List.length_nil]
      have hmod := Nat.div_add_mod n 10
      have hm : n % 10 < 10 := Nat.mod_lt n (by norm_num)
      calc n = 10 * (n / 10) + n % 10 := hmod.symm
    _ < 10 * 10 ^ (digitosAux fuel (n / 10)).length := by omega
    _ = 10 ^ ((digitosAux fuel (n / 10)).length + 1) := by ring

/-- A nonzero `n` needs at least `10 ^ (digits - 1)`. -/
theorem digitosAux_pow_le : ∀ fuel n, n ≤ fuel → n ≠ 0 →
    10 ^ ((digitosAux fuel n).length - 1) ≤ n := by
  intro fuel
  induction fuel with
  | zero => intro n hn h0; omega
  | succ fuel ih =>
    intro n hn h0
    simp only [digitosAux]
    split
    · omega
    · by_cases hq : n / 10 = 0
      · have : digitosAux fuel (n / 10) = [] := by
          cases fuel <;> simp [digitosAux, hq]
        simp [this]
        omega
      · have hdiv : n / 10 ≤ fuel := by
          have : n / 10 < n := Nat.div_lt_self (Nat.pos_of_ne_zero h0) (by norm_num)
          omega
        have h1 := ih (n / 10) hdiv hq
        simp only [List.length_append, List.length_cons, List.length_nil]
        have hlenpos : 1 ≤ (digitosAux fuel (n / 10)).length := by
          by_contra hcon
          have hlen0 : (digitosAux fuel (n / 10)).length = 0 := by omega
          have hlt := digitosAux_lt_pow fuel (n / 10) hdiv
          rw [hlen0] at hlt
          simp at hlt
          exact hq hlt
        calc 10 ^ ((digitosAux fuel (n / 10)).length + 1 - 1)
            = 10 ^ (((digitosAux fuel (n / 10)).length - 1) + 1) := by
              congr 1
              omega
          _ = 10 ^ ((digitosAux fuel (n / 10)).length - 1) * 10 := by rw [pow_succ]
          _ ≤ (n / 10) * 10 := Nat.mul_le_mul_right 10 h1
          _ ≤ n := by
              have := Nat.div_add_mod n 10
              omega

theorem digitosDe_ne_nil (n : Nat) : digitosDe n ≠ [] := by
  unfold digitosDe
  split
  · simp
  · rename_i h0
    intro hcon
    have := digitosAux_lt_pow n n (le_refl n)
    rw [hcon] at this
    simp at this
    omega

/-- `decimalANat` inverts `natADecimal`. -/
theorem decimalANat_natADecimal (n : Nat) : decimalANat (natADecimal n) = some n := by
  have h1 : digitosDe n ≠ [] := digitosDe_ne_nil n
  have h2 : (digitosDe n).all Char.isDigit = true := digitosDe_all_digits n
  unfold decimalANat natADecimal
  have hdata : (String.mk (digitosDe n)).toList = digitosDe n := rfl
  simp only [hdata]
  rw [if_pos ⟨h1, h2⟩]
  congr 1
  unfold digitosDe
  split
  · rename_i h
    subst h
    decide
  · rename_i h0
    rw [digitosAux_foldl n n (le_refl n) 0]
    simp

end RenderLemmas

section SplitLemmas

theorem dividirEn_ne_nil (sep : Char) : ∀ l : List Char, dividirEn sep l ≠ [] := by
  intro l
  induction l with
  | nil => simp [dividirEn]
  | cons c t ih =>
    simp only [dividirEn]
    rcases ht : dividirEn sep t with _ | ⟨g, gs⟩
    · exact absurd ht ih
    · show (if c = sep then [] :: g :: gs else (c :: g) :: gs) ≠ []
      split <;> simp

theorem dividirEn_of_not_mem {sep : Char} : ∀ {l : List Char}, sep ∉ l →
    dividirEn sep l = [l] := by
  intro l
  induction l with
  | nil => intro _; rfl
  | cons c t ih =>
    intro h
    have hc : c ≠ sep := fun hcs => h (hcs ▸ List.mem_cons_self c t)
    have ht : sep ∉ t := fun hm => h (List.mem_cons_of_mem c hm)
    simp only [dividirEn, ih ht]
    rw [if_neg hc]

theorem dividirEn_append_sep {sep : Char} : ∀ {a : List Char}, sep ∉ a → ∀ r,
    dividirEn sep (a ++ sep :: r) = a :: dividirEn sep r := by
  intro a
  induction a with
  | nil =>
    intro _ r
    show dividirEn sep (sep :: r) = [] :: dividirEn sep r
    rcases hr : dividirEn sep r with _ | ⟨g, gs⟩
    · exact absurd hr (dividirEn_ne_nil sep r)
    · rw [dividirEn, hr]
      show (if sep = sep then [] :: g :: gs else (sep :: g) :: gs) = [] :: g :: gs
      rw [if_pos rfl]
  | cons c t ih =>
    intro h r
    have hc : c ≠ sep := fun hcs => h (hcs ▸ List.mem_cons_self c t)
    have ht : sep ∉ t := fun hm => h (List.mem_cons_of_mem c hm)
    show dividirEn sep (c :: (t ++ sep :: r)) = (c :: t) :: dividirEn sep r
    rw [dividirEn, ih ht r]
    show (if c = sep then [] :: t :: dividirEn sep r else (c :: t) :: dividirEn sep r)
      = (c :: t) :: dividirEn sep r
    rw [if_neg hc]

end SplitLemmas

section LongitudLemmas

theorem guion_not_mem_digitosDe (n : Nat) : '-' ∉ digitosDe n := by
  intro hmem
  have hall := digitosDe_all_digits n
  rw [List.all_eq_true] at hall
  have := hall '-' hmem
  simp [Char.isDigit] at this

theorem guion_not_mem_relleno4 (n : Nat) : '-' ∉ relleno4 n := by
  intro hmem
  rcases List.mem_append.mp hmem with h | h
  · have := List.eq_of_mem_replicate h
    simp at this
  · exact guion_not_mem_digitosDe n h

theorem digitosDe_length_le (cota : Nat) {n : Nat} (h : n < 10 ^ cota) (hc : 1 ≤ cota) :
    (digitosDe n).length ≤ cota := by
  unfold digitosDe
  split
  · simpa using hc
  · rename_i h0
    by_contra hcon
    have hle := digitosAux_pow_le n n (le_refl n) h0
    have hpow : 10 ^ cota ≤ 10 ^ ((digitosAux n n).length - 1) :=
      Nat.pow_le_pow_right (by norm_num) (by omega)
    omega

theorem digitosDe_length_ge (cota : Nat) {n : Nat} (h : 10 ^ cota ≤ n) :
    cota < (digitosDe n).length := by
  have hn : n < 10 ^ (digitosDe n).length := by
    unfold digitosDe
    split
    · rename_i he; subst he; decide
    · exact digitosAux_lt_pow n n (le_refl n)
  by_contra hcon
  have : 10 ^ (digitosDe n).length ≤ 10 ^ cota :=
    Nat.pow_le_pow_right (by norm_num) (by omega)
  omega

/-- A four-digit year renders as exactly four characters. -/
theorem digitosDe_length_anio {anio : Nat} (h1 : 1000 ≤ anio) (h2 : anio ≤ 9999) :
    (digitosDe anio).length = 4 := by
  have hge := @digitosDe_length_ge 3 anio (by norm_num; omega)
  have hle := @digitosDe_length_le 4 anio (by norm_num; omega) (by norm_num)
  omega

/-- Sequence numbers up to 9999 pad to exactly four characters. -/
theorem relleno4_length {n : Nat} (h : n ≤ 9999) : (relleno4 n).length = 4 := by
  have hle : (digitosDe n).length ≤ 4 := digitosDe_length_le 4 (by norm_num; omega) (by norm_num)
  simp [relleno4, List.length_replicate]
  omega

/-- Beyond 9999 the padding vanishes: the rendered digits stand alone. -/
theorem relleno4_ancho {n : Nat} (h : 10000 ≤ n) : relleno4 n = digitosDe n := by
  have hge : 4 < (digitosDe n).length := digitosDe_length_ge 4 (by norm_num; omega)
  simp [relleno4]
  omega

theorem relleno4_all_digits (n : Nat) : (relleno4 n).all Char.isDigit = true := by
  rw [List.all_eq_true]
  intro c hc
  rcases List.mem_append.mp hc with h | h
  · rw [List.eq_of_mem_replicate h]
    decide
  · have hall := digitosDe_all_digits n
    rw [List.all_eq_true] at hall
    exact hall c h

theorem digitosDe_foldl_cero (n : Nat) :
    (digitosDe n).foldl (fun acc c => 10 * acc + (c.toNat - 48)) 0 = n := by
  unfold digitosDe
  split
  · rename_i h; subst h; decide
  · rw [digitosAux_foldl n n (le_refl n) 0]
    simp

/-- `decimalANat` also inverts the zero-padded rendering. -/
theorem decimalANat_relleno4 (n : Nat) : decimalANat (formatoCuatroDigitos n) = some n := by
  unfold decimalANat formatoCuatroDigitos
  have hdata : (String.mk (relleno4 n)).toList = relleno4 n := rfl
  simp only [hdata]
  rw [if_pos ⟨by simp [relleno4, digitosDe_ne_nil n], relleno4_all_digits n⟩]
  congr 1
  unfold relleno4
  rw [List.foldl_append]
  have hceros : ∀ k, (List.replicate k '0').foldl (fun acc c => 10 * acc + (c.toNat - 48)) 0 = 0 := by
    intro k
    induction k with
    | zero => rfl
    | succ k ih => simpa [List.replicate_succ] using ih
  rw [hceros]
  exact digitosDe_foldl_cero n

end LongitudLemmas

section FormatearLemmas

theorem formatear_data (tipo : TipoCaso) (numero anio : Nat) :
    (formatear_numero_caso tipo numero anio).toList
      = (prefijos tipo).toList ++ '-' :: (digitosDe anio ++ '-' :: relleno4 numero) := by
  show ((prefijos tipo ++ "-" ++ natADecimal anio ++ "-" ++ formatoCuatroDigitos numero)).data
      = (prefijos tipo).data ++ '-' :: (digitosDe anio ++ '-' :: relleno4 numero)
  simp only [String.data_append]
  show (prefijos tipo).data ++ ['-'] ++ digitosDe anio ++ ['-'] ++ relleno4 numero = _
  simp [List.append_assoc]

theorem guion_not_mem_prefijos (tipo : TipoCaso) : '-' ∉ (prefijos tipo).toList := by
  cases tipo <;> decide

theorem dividirEn_formatear (tipo : TipoCaso) (numero anio : Nat) :
    dividirEn '-' (formatear_numero_caso tipo numero anio).toList
      = [(prefijos tipo).toList, digitosDe anio, relleno4 numero] := by
  rw [formatear_data]
  rw [dividirEn_append_sep (guion_not_mem_prefijos tipo)]
  rw [dividirEn_append_sep (guion_not_mem_digitosDe anio)]
  rw [dividirEn_of_not_mem (guion_not_mem_relleno4 numero)]

theorem prefijosInverso_prefijos (tipo : TipoCaso) :
    prefijosInverso (String.mk (prefijos tipo).toList) = some tipo := by
  cases tipo <;> rfl

/-- Round trip: parsing a formatted case number recovers its components
(`parsear_numero_caso` returns them in the order `(tipo, anio, numero)`). -/
theorem parsear_formatear (tipo : TipoCaso) (numero anio : Nat) :
    parsear_numero_caso (formatear_numero_caso tipo numero anio)
      = .ok (tipo, anio, numero) := by
  unfold parsear_numero_caso
  rw [dividirEn_formatear]
  simp only [List.map_cons, List.map_nil]
  rw [prefijosInverso_prefijos]
  have ha : decimalANat (String.mk (digitosDe anio)) = some anio :=
    decimalANat_natADecimal anio
  have hn : decimalANat (String.mk (relleno4 numero)) = some numero :=
    decimalANat_relleno4 numero
  rw [ha, hn]

/-- The five prefix codes are pairwise distinct. -/
theorem prefijos_inyectivo : ∀ t u : TipoCaso, prefijos t = prefijos u → t = u := by
  intro t u h
  cases t <;> cases u <;> first | rfl | (exact absurd h (by decide))

end FormatearLemmas

/-! ## Data model — the `casos` table row

`app/models/caso.py` is imported by the services but carries the same
row shape that `CasoResponse` (`app/schemas/caso.py`) exposes and that
`db_models.py` plus the `e78cd4d5ef2d` migration define: integer `id`,
numeric `numero_caso` and `anio`, the unique `numero_caso_completo`,
enum `tipo`/`estado`, the requester fields, optional `respuesta`, and
two timestamps (modelled as `Nat`). -/

structure Caso where
  id : Nat
  numero_caso : Nat
  anio : Nat
  numero_caso_completo : String
  tipo : TipoCaso
  asunto : String
  descripcion : String
  nombre_solicitante : String
  email_solicitante : String
  telefono_solicitante : Option String
  estado : EstadoCaso
  respuesta : Option String
  fecha_creacion : Nat
  fecha_actualizacion : Nat
deriving DecidableEq, Repr

/-- `app/schemas/caso.py` — `CasoCreate`: the user-supplied fields of a
new case. -/
structure CasoCreate where
  tipo : TipoCaso
  asunto : String
  descripcion : String
  nombre_solicitante : String
  email_solicitante : String
  telefono_solicitante : Option String
deriving DecidableEq, Repr

/-! ## Case Number Generator — `app/services/caso.py`, `generar_numero_caso` -/

/-- The rows the generator's query ranges over:
`filter(Caso.tipo == tipo, Caso.anio == anio_actual)`. -/
def casosDelTipoYAnio (tipo : TipoCaso) (anio : Nat) (db : List Caso) : List Caso :=
  db.filter (fun c => decide (c.tipo = tipo) && decide (c.anio = anio))

/-- `generar_numero_caso(tipo)`: the current year is an explicit
parameter (`datetime.now().year` in the source); the query
`order_by(Caso.numero_caso.desc()).first()` yields the bucket's maximum
`numero_caso` (or `None`, modelled by the fold's base `0`), and the
function returns `(max + 1, year)`. -/
def generar_numero_caso (tipo : TipoCaso) (anio_actual : Nat) (db : List Caso) : Nat × Nat :=
  let max_numero :=
    ((casosDelTipoYAnio tipo anio_actual db).map (fun c => c.numero_caso)).foldl max 0
  (max_numero + 1, anio_actual)

section MaxLemmas

theorem init_le_foldl_max : ∀ (l : List Nat) (a : Nat), a ≤ l.foldl max a := by
  intro l
  induction l with
  | nil => intro a; exact le_refl a
  | cons h t ih =>
    intro a
    exact le_trans (le_max_left a h) (ih (max a h))

theorem le_foldl_max : ∀ (l : List Nat) (a x : Nat), x ∈ l → x ≤ l.foldl max a := by
  intro l
  induction l with
  | nil => intro a x hx; cases hx
  | cons h t ih =>
    intro a x hx
    rcases List.mem_cons.mp hx with rfl | hxt
    · exact le_trans (le_max_right a x) (init_le_foldl_max t (max a x))
    · exact ih (max a h) x hxt

theorem foldl_max_opciones : ∀ (l : List Nat) (a : Nat),
    l.foldl max a = a ∨ l.foldl max a ∈ l := by
  intro l
  induction l with
  | nil => intro a; exact Or.inl rfl
  | cons h t ih =>
    intro a
    rcases ih (max a h) with heq | hmem
    · rw [List.foldl_cons, heq]
      rcases max_choice a h with h1 | h1
      · exact Or.inl h1
      · exact Or.inr (by rw [h1]; exact List.mem_cons_self h t)
    · exact Or.inr (List.mem_cons_of_mem h hmem)

end MaxLemmas

/-- An example persisted case, used to build concrete stores in the
witnesses below. -/
def casoEjemplo (tipo : TipoCaso) (numero anio : Nat) : Caso :=
  { id := numero
    numero_caso := numero
    anio := anio
    numero_caso_completo := formatear_numero_caso tipo numero anio
    tipo := tipo
    asunto := "Solicitud de información"
    descripcion := "Detalle del caso de ejemplo"
    nombre_solicitante := "Juan Pérez"
    email_solicitante := "juan@email.com"
    telefono_solicitante := none
    estado := .RECIBIDO
    respuesta := none
    fecha_creacion := 0
    fecha_actualizacion := 0 }

/-- A store whose (PETICION, 2025) bucket holds sequence numbers
`{1, 2, 5}`. -/
def dbUnoDosCinco : List Caso :=
  [casoEjemplo .PETICION 1 2025, casoEjemplo .PETICION 2 2025, casoEjemplo .PETICION 5 2025]

/-- **C2.** For every case type the Generator returns the successor of
the maximum `numero_caso` among the cases matching `(tipo, año)`: the
returned year is the input year, an empty bucket yields `1`, every
bucket member's sequence number is strictly below the result, a
non-empty bucket contains a witness for `result = max + 1`, and the
concrete bucket `{1, 2, 5}` yields `6` (gaps ignored). -/
theorem claim_C2_generar_max_mas_uno (tipo : TipoCaso) (anio_actual : Nat) (db : List Caso) :
    (generar_numero_caso tipo anio_actual db).2 = anio_actual ∧
    (casosDelTipoYAnio tipo anio_actual db = [] →
      generar_numero_caso tipo anio_actual db = (1, anio_actual)) ∧
    (∀ c ∈ casosDelTipoYAnio tipo anio_actual db,
      c.numero_caso < (generar_numero_caso tipo anio_actual db).1) ∧
    (casosDelTipoYAnio tipo anio_actual db ≠ [] →
      ∃ c ∈ casosDelTipoYAnio tipo anio_actual db,
        (generar_numero_caso tipo anio_actual db).1 = c.numero_caso + 1) ∧
    (generar_numero_caso .PETICION 2025 dbUnoDosCinco).1 = 6 := by
  refine ⟨rfl, ?_, ?_, ?_, by decide⟩
  · intro h
    simp [generar_numero_caso, h]
  · intro c hc
    have hmem : c.numero_caso ∈ (casosDelTipoYAnio tipo anio_actual db).map
        (fun c => c.numero_caso) := List.mem_map_of_mem _ hc
    have := le_foldl_max _ 0 _ hmem
    simp only [generar_numero_caso]
    omega
  · intro hne
    rcases foldl_max_opciones
        ((casosDelTipoYAnio tipo anio_actual db).map (fun c => c.numero_caso)) 0 with h0 | hmem
    · rcases List.exists_mem_of_ne_nil _ hne with ⟨c, hc⟩
      refine ⟨c, hc, ?_⟩
      have hmem : c.numero_caso ∈ (casosDelTipoYAnio tipo anio_actual db).map
          (fun c => c.numero_caso) := List.mem_map_of_mem _ hc
      have hle := le_foldl_max _ 0 _ hmem
      simp only [generar_numero_caso]
      omega
    · rcases List.mem_map.mp hmem with ⟨c, hc, hcn⟩
      exact ⟨c, hc, by simp only [generar_numero_caso]; omega⟩

/-- **C6.** The Formatter produces `"{PREFIX}-{YEAR}-{SEQ:04d}"` with the
fixed 3-letter code of the type: for a (four-digit) year and
`1 ≤ s ≤ 9999` the result matches `^[A-Z]{3}-\d{4}-\d{4}$` with middle
segment the year's digits and last segment `s` zero-padded to 4 digits;
for `s ≥ 10000` the last segment widens to the full digits of `s`
without truncation; the five codes are pairwise distinct; and parsing
the formatted string recovers exactly `(tipo, anio, s)`. -/
theorem claim_C6_formatear_redondo (tipo : TipoCaso) (anio s : Nat)
    (hanio1 : 1000 ≤ anio) (hanio2 : anio ≤ 9999) :
    (1 ≤ s → s ≤ 9999 →
      coincidePatronNumeroCaso (formatear_numero_caso tipo s anio) = true ∧
      dividirEn '-' (formatear_numero_caso tipo s anio).toList
        = [(prefijos tipo).toList, digitosDe anio, relleno4 s]) ∧
    (10000 ≤ s →
      dividirEn '-' (formatear_numero_caso tipo s anio).toList
        = [(prefijos tipo).toList, digitosDe anio, digitosDe s]) ∧
    (∀ t u : TipoCaso, prefijos t = prefijos u → t = u) ∧
    parsear_numero_caso (formatear_numero_caso tipo s anio) = .ok (tipo, anio, s) := by
  refine ⟨?_, ?_, prefijos_inyectivo, parsear_formatear tipo s anio⟩
  · intro hs1 hs2
    refine ⟨?_, dividirEn_formatear tipo s anio⟩
    unfold coincidePatronNumeroCaso
    rw [dividirEn_formatear]
    show ((prefijos tipo).toList.length == 3 &&
        (prefijos tipo).toList.all (fun ch => 'A' ≤ ch && ch ≤ 'Z') &&
        (digitosDe anio).length == 4 && (digitosDe anio).all Char.isDigit &&
        (relleno4 s).length == 4 && (relleno4 s).all Char.isDigit) = true
    simp only [Bool.and_eq_true, beq_iff_eq]
    refine ⟨⟨⟨⟨⟨?_, ?_⟩, ?_⟩, ?_⟩, ?_⟩, ?_⟩
    · cases tipo <;> decide
    · cases tipo <;> decide
    · exact digitosDe_length_anio hanio1 hanio2
    · exact digitosDe_all_digits anio
    · exact relleno4_length (by omega)
    · exact relleno4_all_digits s
  · intro hs
    rw [dividirEn_formatear, relleno4_ancho hs]

/-- Witness for C6 at `(PETICION, 2025, 7)`. -/
theorem claim_C6_formatear_redondo_testigo :
    (1000 ≤ 2025 ∧ 2025 ≤ 9999 ∧ 1 ≤ 7 ∧ 7 ≤ 9999) ∧
    coincidePatronNumeroCaso (formatear_numero_caso .PETICION 7 2025) = true ∧
    parsear_numero_caso (formatear_numero_caso .PETICION 7 2025) = .ok (.PETICION, 2025, 7) := by
  have h := claim_C6_formatear_redondo .PETICION 2025 7 (by norm_num) (by norm_num)
  exact ⟨⟨by norm_num, by norm_num, by norm_num, by norm_num⟩,
    (h.1 (by norm_num) (by norm_num)).1, h.2.2.2⟩

/-! ## Case Creation Orchestrator — `app/services/caso.py`, `crear_nuevo_caso` -/

/-- `Caso.from_pydantic(caso_data, numero_caso, anio, numero_caso_completo)`.
Modelled from the spec: the SQLAlchemy model `app/models/caso.py` that
the services import is not among the sources (only its callers and the
older `db_models.py` variant are).  Spec §4.3 step 3 ("construct the
full case record with status forced to RECEIVED") and §3
(`official_response` set only by the update operation), matching
`db_models.py`'s `from_pydantic` (copies the submitted fields, sets
`estado=EstadoCaso.RECIBIDO`, leaves `respuesta` unset), fix its
behaviour; the server-assigned `id` and timestamps stay at defaults. -/
def Caso.from_pydantic (caso_data : CasoCreate) (numero_caso anio : Nat)
    (numero_caso_completo : String) : Caso :=
  { id := 0
    numero_caso := numero_caso
    anio := anio
    numero_caso_completo := numero_caso_completo
    tipo := caso_data.tipo
    asunto := caso_data.asunto
    descripcion := caso_data.descripcion
    nombre_solicitante := caso_data.nombre_solicitante
    email_solicitante := caso_data.email_solicitante
    telefono_solicitante := caso_data.telefono_solicitante
    estado := .RECIBIDO
    respuesta := none
    fecha_creacion := 0
    fecha_actualizacion := 0 }

/-- Python's `pat in hay` on the underlying character lists: `pat`
occurs contiguously in the remainder of `hay`. -/
def contieneAux (pat : List Char) : List Char → Bool
  | [] => pat.isEmpty
  | c :: t => pat.isPrefixOf (c :: t) || contieneAux pat t

/-- Python's `pat in hay` for strings. -/
def contieneSubcadena (hay pat : String) : Bool :=
  contieneAux pat.toList hay.toList

/-- Python's `s.lower()` (ASCII range, the only characters the messages
involved use). -/
def aMinusculas (s : String) : String :=
  String.mk (s.toList.map Char.toLower)

/-- One storage insert attempt's outcome, as the `try/except` blocks of
`crear_nuevo_caso` distinguish them: the commit succeeds, raises
`IntegrityError` (carrying the driver's message `str(e)`), or raises
any other exception. -/
inductive ResultadoAlmacen where
  | exito
  | errorIntegridad (msg : String)
  | otroError (msg : String)
deriving DecidableEq, Repr

/-- The duplicate-number test of the `except IntegrityError` handler:
`"numero_caso" in str(e).lower() or "unique constraint" in str(e).lower()`. -/
def es_error_numero_duplicado (msg : String) : Bool :=
  contieneSubcadena (aMinusculas msg) "numero_caso" ||
  contieneSubcadena (aMinusculas msg) "unique constraint"

/-- The outcomes of `crear_nuevo_caso`: the returned created case, or
one of its four distinct `raise HTTPException` sites, each carrying the
HTTP status code and `detail` string it raises. -/
inductive ResultadoCreacion where
  | creado (caso : Caso)
  | errorAgotado (status : Nat) (detalle : String)
  | errorIntegridad (status : Nat) (detalle : String)
  | errorGenerico (status : Nat) (detalle : String)
  | errorInesperado (status : Nat) (detalle : String)
deriving DecidableEq, Repr

/-- Execution trace of `crear_nuevo_caso`: the final result, the insert
attempts issued (attempt index paired with the row handed to
`db.add`), and the backoff sleeps in seconds, in order. -/
structure TrazaCreacion where
  resultado : ResultadoCreacion
  escrituras : List (Nat × Caso)
  esperas : List ℚ
deriving DecidableEq, Repr

/-- The `for intento in range(max_intentos)` loop of `crear_nuevo_caso`.
`dbs i` is the store state the attempt-`i` generator read observes
(concurrent writers may change it between attempts), `resultados i`
that attempt's storage outcome, and `jitter i` the draw of
`random.uniform(0, 1)`.  The first argument counts the iterations the
`range` has left; exhausting it reaches the fall-through
`raise HTTPException` after the loop.  Both branches of the source's
`if intento == 0` call the same `generar_numero_caso`, so the model has
a single call. -/
def crearIntentos (caso_data : CasoCreate) (anio_actual : Nat) (dbs : Nat → List Caso)
    (resultados : Nat → ResultadoAlmacen) (jitter : Nat → ℚ) (max_intentos : Nat) :
    Nat → Nat → TrazaCreacion
  | 0, _ =>
    ⟨.errorInesperado 500 "Error inesperado: se agotaron los intentos sin generar excepción",
      [], []⟩
  | fuel + 1, intento =>
    let na := generar_numero_caso caso_data.tipo anio_actual (dbs intento)
    let numero_caso := na.1
    let anio := na.2
    let numero_caso_completo := formatear_numero_caso caso_data.tipo numero_caso anio
    let nuevo_caso := Caso.from_pydantic caso_data numero_caso anio numero_caso_completo
    match resultados intento with
    | .exito => ⟨.creado nuevo_caso, [(intento, nuevo_caso)], []⟩
    | .errorIntegridad msg =>
      if es_error_numero_duplicado msg then
        if intento < max_intentos - 1 then
          let resto := crearIntentos caso_data anio_actual dbs resultados jitter max_intentos
            fuel (intento + 1)
          ⟨resto.resultado, (intento, nuevo_caso) :: resto.escrituras,
            ((2 : ℚ) ^ intento + jitter intento) :: resto.esperas⟩
        else
          ⟨.errorAgotado 500 ("No se pudo generar un número de caso único después de "
              ++ natADecimal max_intentos ++ " intentos. Intente nuevamente en unos momentos."),
            [(intento, nuevo_caso)], []⟩
      else
        ⟨.errorIntegridad 500 ("Error de integridad en la base de datos: " ++ msg),
          [(intento, nuevo_caso)], []⟩
    | .otroError msg =>
      ⟨.errorGenerico 500 ("Error al crear el caso: " ++ msg), [(intento, nuevo_caso)], []⟩

/-- The default `max_intentos` of `crear_nuevo_caso`. -/
def max_intentos_defecto : Nat := 5

/-- `crear_nuevo_caso(caso_data, max_intentos)`: run the retry loop from
attempt `0` with `max_intentos` iterations available. -/
def crear_nuevo_caso (caso_data : CasoCreate) (anio_actual : Nat) (dbs : Nat → List Caso)
    (resultados : Nat → ResultadoAlmacen) (jitter : Nat → ℚ) (max_intentos : Nat) :
    TrazaCreacion :=
  crearIntentos caso_data anio_actual dbs resultados jitter max_intentos max_intentos 0

section OrquestadorLemmas

/-- While an iteration of the loop is still available, the fall-through
`raise` after the loop cannot be the outcome. -/
theorem crearIntentos_no_inesperado (caso_data : CasoCreate) (anio_actual : Nat)
    (dbs : Nat → List Caso) (resultados : Nat → ResultadoAlmacen) (jitter : Nat → ℚ)
    (max_intentos : Nat) :
    ∀ fuel intento, intento + fuel = max_intentos → intento < max_intentos →
      ∀ st d, (crearIntentos caso_data anio_actual dbs resultados jitter max_intentos
          fuel intento).resultado ≠ .errorInesperado st d := by
  intro fuel
  induction fuel with
  | zero => intro intento h1 h2 st d; omega
  | succ fuel ih =>
    intro intento h1 h2 st d
    simp only [crearIntentos]
    cases hres : resultados intento with
    | exito => simp
    | errorIntegridad msg =>
      cases hdup : es_error_numero_duplicado msg
      · simp [hdup]
      · by_cases hlt : intento < max_intentos - 1
        · simpa [hdup, hlt] using ih (intento + 1) (by omega) (by omega) st d
        · simp [hdup, hlt]
    | otroError msg => simp

end OrquestadorLemmas

/-- **C10.** For every `max_intentos ≥ 1`, each iteration of the retry
loop either returns a created case or raises, so the fall-through
"unexpected error" `raise` placed after the loop in `crear_nuevo_caso`
is unreachable: the outcome is never `errorInesperado`. -/
theorem claim_C10_inesperado_inalcanzable (caso_data : CasoCreate) (anio_actual : Nat)
    (dbs : Nat → List Caso) (resultados : Nat → ResultadoAlmacen) (jitter : Nat → ℚ)
    (max_intentos : Nat) (hmax : 1 ≤ max_intentos) :
    ∀ st d, (crear_nuevo_caso caso_data anio_actual dbs resultados jitter
        max_intentos).resultado ≠ .errorInesperado st d := by
  intro st d
  exact crearIntentos_no_inesperado caso_data anio_actual dbs resultados jitter max_intentos
    max_intentos 0 (by omega) (by omega) st d

/-- An example creation request, used by the orchestrator witnesses. -/
def casoCreateEjemplo : CasoCreate :=
  { tipo := .PETICION
    asunto := "Solicitud de información"
    descripcion := "Necesito información sobre un trámite"
    nombre_solicitante := "Juan Pérez"
    email_solicitante := "juan@email.com"
    telefono_solicitante := none }

/-- Witness for C10 with five attempts and an immediately successful
store. -/
theorem claim_C10_inesperado_inalcanzable_testigo :
    1 ≤ 5 ∧ (crear_nuevo_caso casoCreateEjemplo 2025 (fun _ => []) (fun _ => .exito)
      (fun _ => 0) 5).resultado ≠ .errorInesperado 500 "" :=
  ⟨by norm_num,
    claim_C10_inesperado_inalcanzable casoCreateEjemplo 2025 (fun _ => []) (fun _ => .exito)
      (fun _ => 0) 5 (by norm_num) 500 ""⟩

section BackoffLemmas

/-- The sleeps any run records are exactly `2^i + jitter i` for the
consecutive retried attempts `i = intento, intento+1, …`, and only
attempts strictly below `max_intentos - 1` ever sleep. -/
theorem crearIntentos_esperas (caso_data : CasoCreate) (anio_actual : Nat)
    (dbs : Nat → List Caso) (resultados : Nat → ResultadoAlmacen) (jitter : Nat → ℚ)
    (max_intentos : Nat) :
    ∀ fuel intento, ∃ k, (k = 0 ∨ intento + k ≤ max_intentos - 1) ∧
      (crearIntentos caso_data anio_actual dbs resultados jitter max_intentos
          fuel intento).esperas
        = (List.range' intento k).map (fun i => (2 : ℚ) ^ i + jitter i) := by
  intro fuel
  induction fuel with
  | zero => intro intento; exact ⟨0, Or.inl rfl, rfl⟩
  | succ fuel ih =>
    intro intento
    simp only [crearIntentos]
    cases hres : resultados intento with
    | exito => exact ⟨0, Or.inl rfl, by simp⟩
    | errorIntegridad msg =>
      cases hdup : es_error_numero_duplicado msg
      · exact ⟨0, Or.inl rfl, by simp [hdup]⟩
      · by_cases hlt : intento < max_intentos - 1
        · obtain ⟨k, hk, hesp⟩ := ih (intento + 1)
          refine ⟨k + 1, Or.inr (by omega), ?_⟩
          simp [hdup, hlt, hesp, List.range'_succ]
        · exact ⟨0, Or.inl rfl, by simp [hdup, hlt]⟩
    | otroError msg => exact ⟨0, Or.inl rfl, by simp⟩

/-- Every insert attempt uses the candidate recomputed from the store
state observed at that very attempt. -/
theorem crearIntentos_escrituras_frescas (caso_data : CasoCreate) (anio_actual : Nat)
    (dbs : Nat → List Caso) (resultados : Nat → ResultadoAlmacen) (jitter : Nat → ℚ)
    (max_intentos : Nat) :
    ∀ fuel intento, ∀ p ∈ (crearIntentos caso_data anio_actual dbs resultados jitter
        max_intentos fuel intento).escrituras,
      p.2 = Caso.from_pydantic caso_data
        (generar_numero_caso caso_data.tipo anio_actual (dbs p.1)).1 anio_actual
        (formatear_numero_caso caso_data.tipo
          (generar_numero_caso caso_data.tipo anio_actual (dbs p.1)).1 anio_actual) := by
  intro fuel
  induction fuel with
  | zero => intro intento p hp; cases hp
  | succ fuel ih =>
    intro intento p hp
    simp only [crearIntentos] at hp
    cases hres : resultados intento with
    | exito =>
      simp [hres] at hp
      subst hp
      rfl
    | errorIntegridad msg =>
      cases hdup : es_error_numero_duplicado msg
      · simp [hres, hdup] at hp
        subst hp
        rfl
      · by_cases hlt : intento < max_intentos - 1
        · simp [hres, hdup, hlt] at hp
          rcases hp with hp | hp
          · subst hp
            rfl
          · exact ih (intento + 1) p hp
        · simp [hres, hdup, hlt] at hp
          subst hp
          rfl
    | otroError msg =>
      simp [hres] at hp
      subst hp
      rfl

end BackoffLemmas

/-- **C3.** After a collision at attempt `n` with `n < max_intentos - 1`
the Orchestrator sleeps exactly `2^n + jitter n` seconds with
`jitter n ∈ [0, 1)`: the recorded sleeps are exactly
`2^0 + jitter 0, …, 2^(k-1) + jitter (k-1)` for some
`k ≤ max_intentos - 1`; each insert attempt recomputes its candidate
fresh from the store state that attempt observes (never reusing a stale
candidate); and with the default `max_intentos = 5` the cumulative
sleep is strictly below 19 seconds. -/
theorem claim_C3_backoff_exponencial (caso_data : CasoCreate) (anio_actual : Nat)
    (dbs : Nat → List Caso) (resultados : Nat → ResultadoAlmacen) (jitter : Nat → ℚ)
    (max_intentos : Nat) (hj : ∀ n, 0 ≤ jitter n ∧ jitter n < 1) :
    (∃ k ≤ max_intentos - 1,
      (crear_nuevo_caso caso_data anio_actual dbs resultados jitter max_intentos).esperas
        = (List.range k).map (fun i => (2 : ℚ) ^ i + jitter i)) ∧
    (∀ p ∈ (crear_nuevo_caso caso_data anio_actual dbs resultados jitter
        max_intentos).escrituras,
      p.2 = Caso.from_pydantic caso_data
        (generar_numero_caso caso_data.tipo anio_actual (dbs p.1)).1 anio_actual
        (formatear_numero_caso caso_data.tipo
          (generar_numero_caso caso_data.tipo anio_actual (dbs p.1)).1 anio_actual)) ∧
    (max_intentos = max_intentos_defecto →
      (crear_nuevo_caso caso_data anio_actual dbs resultados jitter
          max_intentos).esperas.sum < 19) := by
  obtain ⟨k, hk, hesp⟩ := crearIntentos_esperas caso_data anio_actual dbs resultados jitter
    max_intentos max_intentos 0
  have hkle : k ≤ max_intentos - 1 := by omega
  have hrange : List.range' 0 k = List.range k := (List.range_eq_range' k).symm
  refine ⟨⟨k, hkle, by rw [crear_nuevo_caso, hesp, hrange]⟩, ?_, ?_⟩
  · exact crearIntentos_escrituras_frescas caso_data anio_actual dbs resultados jitter
      max_intentos max_intentos 0
  · intro hdef
    rw [crear_nuevo_caso, hesp, hrange]
    have h0 := hj 0
    have h1 := hj 1
    have h2 := hj 2
    have h3 := hj 3
    have hk4 : k ≤ 4 := by
      rw [hdef] at hkle
      simpa [max_intentos_defecto] using hkle
    interval_cases k <;>
      simp [List.range_succ] <;>
      norm_num <;>
      linarith

/-- A store oracle that reports a duplicate-number collision on attempt
0 and commits on every later attempt. -/
def resultadosUnaColision : Nat → ResultadoAlmacen :=
  fun n => if n = 0 then .errorIntegridad "unique constraint" else .exito

/-- Witness for C3: one collision with jitter `1/2` under the default
five attempts; the cumulative sleep stays below 19 seconds. -/
theorem claim_C3_backoff_exponencial_testigo :
    (∀ n : Nat, 0 ≤ ((fun _ : Nat => (1 : ℚ)/2) n) ∧ ((fun _ : Nat => (1 : ℚ)/2) n) < 1) ∧
    (crear_nuevo_caso casoCreateEjemplo 2025 (fun _ => []) resultadosUnaColision
        (fun _ => (1 : ℚ)/2) 5).esperas.sum < 19 :=
  ⟨fun _ => ⟨by norm_num, by norm_num⟩,
    (claim_C3_backoff_exponencial casoCreateEjemplo 2025 (fun _ => []) resultadosUnaColision
        (fun _ => (1 : ℚ)/2) 5 (fun _ => ⟨by norm_num, by norm_num⟩)).2.2 rfl⟩

section AgotamientoLemmas

/-- Substring containment is stable under prepending. -/
theorem contieneAux_append {pat ys : List Char} (h : contieneAux pat ys = true) :
    ∀ xs, contieneAux pat (xs ++ ys) = true := by
  intro xs
  induction xs with
  | nil => exact h
  | cons c t ih => simp [contieneAux, ih]

/-- If every attempt collides on the case number, the run ends in the
generation-exhausted error after issuing exactly the remaining inserts. -/
theorem crearIntentos_agotado (caso_data : CasoCreate) (anio_actual : Nat)
    (dbs : Nat → List Caso) (resultados : Nat → ResultadoAlmacen) (jitter : Nat → ℚ)
    (max_intentos : Nat)
    (hdup : ∀ n, n < max_intentos → ∃ msg, resultados n = .errorIntegridad msg ∧
      es_error_numero_duplicado msg = true) :
    ∀ fuel intento, intento + fuel = max_intentos → intento < max_intentos →
      (crearIntentos caso_data anio_actual dbs resultados jitter max_intentos
          fuel intento).resultado
        = .errorAgotado 500 ("No se pudo generar un número de caso único después de "
            ++ natADecimal max_intentos ++ " intentos. Intente nuevamente en unos momentos.") ∧
      (crearIntentos caso_data anio_actual dbs resultados jitter max_intentos
          fuel intento).escrituras.length = fuel ∧
      (∀ p ∈ (crearIntentos caso_data anio_actual dbs resultados jitter max_intentos
          fuel intento).escrituras, intento ≤ p.1 ∧ p.1 < max_intentos) := by
  intro fuel
  induction fuel with
  | zero => intro intento h1 h2; omega
  | succ fuel ih =>
    intro intento h1 h2
    obtain ⟨msg, hres, hdupmsg⟩ := hdup intento (by omega)
    by_cases hlt : intento < max_intentos - 1
    · have hrest := ih (intento + 1) (by omega) (by omega)
      refine ⟨?_, ?_, ?_⟩
      · simp only [crearIntentos]
        simp [hres, hdupmsg, hlt, hrest.1]
      · simp only [crearIntentos]
        simp [hres, hdupmsg, hlt, hrest.2.1]
      · intro p hp
        simp only [crearIntentos] at hp
        simp [hres, hdupmsg, hlt] at hp
        rcases hp with hp | hp
        · subst hp
          exact ⟨le_refl _, by omega⟩
        · have hp2 := hrest.2.2 p hp
          exact ⟨by omega, hp2.2⟩
    · have hfuel : fuel = 0 := by omega
      subst hfuel
      refine ⟨?_, ?_, ?_⟩
      · simp only [crearIntentos]
        simp [hres, hdupmsg, hlt]
      · simp only [crearIntentos]
        simp [hres, hdupmsg, hlt]
      · intro p hp
        simp only [crearIntentos] at hp
        simp [hres, hdupmsg, hlt] at hp
        subst hp
        exact ⟨le_refl _, by omega⟩

end AgotamientoLemmas

/-- **C4.** If all `max_intentos` attempts collide on the case number,
the Orchestrator raises the generation-exhausted error as HTTP 500 with
a message suggesting the caller retry later ("Intente nuevamente"), and
issues exactly `max_intentos` insert attempts, all with attempt index
below `max_intentos` — no storage write happens after the last failed
attempt. -/
theorem claim_C4_agotamiento (caso_data : CasoCreate) (anio_actual : Nat)
    (dbs : Nat → List Caso) (resultados : Nat → ResultadoAlmacen) (jitter : Nat → ℚ)
    (max_intentos : Nat) (hmax : 1 ≤ max_intentos)
    (hdup : ∀ n, n < max_intentos → ∃ msg, resultados n = .errorIntegridad msg ∧
      es_error_numero_duplicado msg = true) :
    (crear_nuevo_caso caso_data anio_actual dbs resultados jitter max_intentos).resultado
      = .errorAgotado 500 ("No se pudo generar un número de caso único después de "
          ++ natADecimal max_intentos ++ " intentos. Intente nuevamente en unos momentos.") ∧
    contieneSubcadena ("No se pudo generar un número de caso único después de "
        ++ natADecimal max_intentos ++ " intentos. Intente nuevamente en unos momentos.")
      "Intente nuevamente" = true ∧
    (crear_nuevo_caso caso_data anio_actual dbs resultados jitter
        max_intentos).escrituras.length = max_intentos ∧
    (∀ p ∈ (crear_nuevo_caso caso_data anio_actual dbs resultados jitter
        max_intentos).escrituras, p.1 < max_intentos) := by
  have h := crearIntentos_agotado caso_data anio_actual dbs resultados jitter max_intentos
    hdup max_intentos 0 (by omega) (by omega)
  refine ⟨h.1, ?_, h.2.1, fun p hp => (h.2.2 p hp).2⟩
  show contieneAux "Intente nuevamente".toList
    (("No se pudo generar un número de caso único después de " ++ natADecimal max_intentos
      ++ " intentos. Intente nuevamente en unos momentos.").data) = true
  rw [String.data_append, String.data_append]
  refine contieneAux_append ?_ _
  decide

/-- Witness for C4: two attempts, both colliding. -/
theorem claim_C4_agotamiento_testigo :
    (1 ≤ 2 ∧ (∀ n, n < 2 →
      ∃ msg, (fun _ : Nat => ResultadoAlmacen.errorIntegridad "unique constraint") n
          = .errorIntegridad msg ∧ es_error_numero_duplicado msg = true)) ∧
    (crear_nuevo_caso casoCreateEjemplo 2025 (fun _ => [])
        (fun _ => .errorIntegridad "unique constraint") (fun _ => 0) 2).escrituras.length = 2 :=
  ⟨⟨by norm_num, fun n _ => ⟨"unique constraint", rfl, by decide⟩⟩,
    (claim_C4_agotamiento casoCreateEjemplo 2025 (fun _ => [])
        (fun _ => .errorIntegridad "unique constraint") (fun _ => 0) 2 (by norm_num)
        (fun n _ => ⟨"unique constraint", rfl, by decide⟩)).2.2.1⟩

section FalloInmediatoLemmas

/-- After `k` consecutive case-number collisions, a failure that is not
classified as a case-number duplicate stops the loop at once: the error
is surfaced with the underlying message, exactly `k + 1` inserts were
issued and only the earlier `k` collisions slept. -/
theorem crearIntentos_fallo_inmediato (caso_data : CasoCreate) (anio_actual : Nat)
    (dbs : Nat → List Caso) (resultados : Nat → ResultadoAlmacen) (jitter : Nat → ℚ)
    (max_intentos : Nat) :
    ∀ k fuel intento, intento + fuel = max_intentos → intento + k < max_intentos →
      (∀ i, i < k → ∃ m, resultados (intento + i) = .errorIntegridad m ∧
        es_error_numero_duplicado m = true) →
      (∀ msg, resultados (intento + k) = .errorIntegridad msg →
        es_error_numero_duplicado msg = false →
        (crearIntentos caso_data anio_actual dbs resultados jitter max_intentos
            fuel intento).resultado
          = .errorIntegridad 500 ("Error de integridad en la base de datos: " ++ msg) ∧
        (crearIntentos caso_data anio_actual dbs resultados jitter max_intentos
            fuel intento).escrituras.length = k + 1 ∧
        (crearIntentos caso_data anio_actual dbs resultados jitter max_intentos
            fuel intento).esperas.length = k) ∧
      (∀ msg, resultados (intento + k) = .otroError msg →
        (crearIntentos caso_data anio_actual dbs resultados jitter max_intentos
            fuel intento).resultado
          = .errorGenerico 500 ("Error al crear el caso: " ++ msg) ∧
        (crearIntentos caso_data anio_actual dbs resultados jitter max_intentos
            fuel intento).escrituras.length = k + 1 ∧
        (crearIntentos caso_data anio_actual dbs resultados jitter max_intentos
            fuel intento).esperas.length = k) := by
  intro k
  induction k with
  | zero =>
    intro fuel intento h1 h2 _
    rcases fuel with _ | fuel
    · omega
    · constructor
      · intro msg hres hnd
        rw [Nat.add_zero] at hres
        simp only [crearIntentos]
        refine ⟨?_, ?_, ?_⟩ <;> simp [hres, hnd]
      · intro msg hres
        rw [Nat.add_zero] at hres
        simp only [crearIntentos]
        refine ⟨?_, ?_, ?_⟩ <;> simp [hres]
  | succ k ih =>
    intro fuel intento h1 h2 hprev
    rcases fuel with _ | fuel
    · omega
    · obtain ⟨m, hm, hdm⟩ := by
        have := hprev 0 (by omega)
        rwa [Nat.add_zero] at this
      have hlt : intento < max_intentos - 1 := by omega
      have hprev' : ∀ i, i < k → ∃ m', resultados (intento + 1 + i) = .errorIntegridad m' ∧
          es_error_numero_duplicado m' = true := by
        intro i hi
        have := hprev (i + 1) (by omega)
        rwa [show intento + (i + 1) = intento + 1 + i by omega] at this
      have hrest := ih fuel (intento + 1) (by omega) (by omega) hprev'
      have hidx : intento + (k + 1) = intento + 1 + k := by omega
      constructor
      · intro msg hres hnd
        rw [hidx] at hres
        have hr := hrest.1 msg hres hnd
        simp only [crearIntentos]
        refine ⟨?_, ?_, ?_⟩ <;> simp [hm, hdm, hlt, hr.1, hr.2.1, hr.2.2]
      · intro msg hres
        rw [hidx] at hres
        have hr := hrest.2 msg hres
        simp only [crearIntentos]
        refine ⟨?_, ?_, ?_⟩ <;> simp [hm, hdm, hlt, hr.1, hr.2.1, hr.2.2]

end FalloInmediatoLemmas

/-- **C5.** A storage failure not classified as a case-number
uniqueness violation stops the creation loop immediately, with no
retry and no further sleep, surfacing the underlying message: whether
it is an integrity violation whose message matches neither
`"numero_caso"` nor `"unique constraint"` (the source's classifier for
case-number duplicates — in this schema the only unique constraints
are the case-number columns), or any other exception, the run that hit
it at attempt `k` after `k` genuine collisions raises HTTP 500 at once
with exactly `k + 1` inserts and `k` sleeps; only case-number
collisions are retried. -/
theorem claim_C5_fallo_inmediato (caso_data : CasoCreate) (anio_actual : Nat)
    (dbs : Nat → List Caso) (resultados : Nat → ResultadoAlmacen) (jitter : Nat → ℚ)
    (max_intentos k : Nat) (hk : k < max_intentos)
    (hprev : ∀ i, i < k → ∃ m, resultados i = .errorIntegridad m ∧
      es_error_numero_duplicado m = true) :
    (∀ msg, resultados k = .errorIntegridad msg → es_error_numero_duplicado msg = false →
      (crear_nuevo_caso caso_data anio_actual dbs resultados jitter max_intentos).resultado
        = .errorIntegridad 500 ("Error de integridad en la base de datos: " ++ msg) ∧
      (crear_nuevo_caso caso_data anio_actual dbs resultados jitter
          max_intentos).escrituras.length = k + 1 ∧
      (crear_nuevo_caso caso_data anio_actual dbs resultados jitter
          max_intentos).esperas.length = k) ∧
    (∀ msg, resultados k = .otroError msg →
      (crear_nuevo_caso caso_data anio_actual dbs resultados jitter max_intentos).resultado
        = .errorGenerico 500 ("Error al crear el caso: " ++ msg) ∧
      (crear_nuevo_caso caso_data anio_actual dbs resultados jitter
          max_intentos).escrituras.length = k + 1 ∧
      (crear_nuevo_caso caso_data anio_actual dbs resultados jitter
          max_intentos).esperas.length = k) := by
  have h := crearIntentos_fallo_inmediato caso_data anio_actual dbs resultados jitter
    max_intentos k max_intentos 0 (by omega) (by omega)
    (by intro i hi; simpa using hprev i hi)
  constructor
  · intro msg hres hnd
    exact h.1 msg (by simpa using hres) hnd
  · intro msg hres
    exact h.2 msg (by simpa using hres)

/-- A store oracle whose first attempt fails with an integrity
violation unrelated to the case number (a NOT NULL violation). -/
def resultadosViolacionAjena : Nat → ResultadoAlmacen :=
  fun _ => .errorIntegridad "null value in column asunto violates not-null constraint"

/-- Witness for C5: an unrelated integrity violation on the very first
attempt fails immediately with one insert and no sleep. -/
theorem claim_C5_fallo_inmediato_testigo :
    (0 < 5 ∧ es_error_numero_duplicado
        "null value in column asunto violates not-null constraint" = false) ∧
    (crear_nuevo_caso casoCreateEjemplo 2025 (fun _ => []) resultadosViolacionAjena
        (fun _ => 0) 5).escrituras.length = 0 + 1 :=
  ⟨⟨by norm_num, by decide⟩,
    ((claim_C5_fallo_inmediato casoCreateEjemplo 2025 (fun _ => []) resultadosViolacionAjena
        (fun _ => 0) 5 0 (by norm_num) (by intro i hi; omega)).1
      "null value in column asunto violates not-null constraint" rfl (by decide)).2.1⟩

section EstadoInicialLemmas

/-- Whatever the oracle does, a successfully created case was built by
`Caso.from_pydantic`: its status is `RECIBIDO` and its official
response is unset. -/
theorem crearIntentos_creado_campos (caso_data : CasoCreate) (anio_actual : Nat)
    (dbs : Nat → List Caso) (resultados : Nat → ResultadoAlmacen) (jitter : Nat → ℚ)
    (max_intentos : Nat) :
    ∀ fuel intento c, (crearIntentos caso_data anio_actual dbs resultados jitter max_intentos
        fuel intento).resultado = .creado c →
      c.estado = .RECIBIDO ∧ c.respuesta = none := by
  intro fuel
  induction fuel with
  | zero =>
    intro intento c hc
    simp [crearIntentos] at hc
  | succ fuel ih =>
    intro intento c hc
    simp only [crearIntentos] at hc
    cases hres : resultados intento with
    | exito =>
      simp [hres] at hc
      subst hc
      exact ⟨rfl, rfl⟩
    | errorIntegridad msg =>
      cases hdup : es_error_numero_duplicado msg
      · simp [hres, hdup] at hc
      · by_cases hlt : intento < max_intentos - 1
        · simp [hres, hdup, hlt] at hc
          exact ih (intento + 1) c hc
        · simp [hres, hdup, hlt] at hc
    | otroError msg =>
      simp [hres] at hc

end EstadoInicialLemmas

/-- **C7.** Every successfully created case starts with status
`RECIBIDO` and a null official response, regardless of the submitted
input; and creating a `PETICION` in 2025 against a store with no prior
petition that year yields `numero_caso_completo = "PET-2025-0001"`,
status `RECIBIDO`, and no response. -/
theorem claim_C7_estado_inicial (caso_data : CasoCreate) (anio_actual : Nat)
    (dbs : Nat → List Caso) (resultados : Nat → ResultadoAlmacen) (jitter : Nat → ℚ)
    (max_intentos : Nat) :
    (∀ c, (crear_nuevo_caso caso_data anio_actual dbs resultados jitter
        max_intentos).resultado = .creado c →
      c.estado = .RECIBIDO ∧ c.respuesta = none) ∧
    (caso_data.tipo = .PETICION → anio_actual = 2025 →
      casosDelTipoYAnio .PETICION 2025 (dbs 0) = [] →
      resultados 0 = .exito → 1 ≤ max_intentos →
      ∃ c, (crear_nuevo_caso caso_data anio_actual dbs resultados jitter
          max_intentos).resultado = .creado c ∧
        c.numero_caso_completo = "PET-2025-0001" ∧ c.numero_caso = 1 ∧ c.anio = 2025 ∧
        c.estado = .RECIBIDO ∧ c.respuesta = none) := by
  constructor
  · intro c hc
    exact crearIntentos_creado_campos caso_data anio_actual dbs resultados jitter
      max_intentos max_intentos 0 c hc
  · intro htipo hanio hempty hres0 hmax
    subst hanio
    have hgen : generar_numero_caso caso_data.tipo 2025 (dbs 0) = (1, 2025) := by
      rw [htipo]
      simp [generar_numero_caso, hempty]
    have hfmt : formatear_numero_caso caso_data.tipo 1 2025 = "PET-2025-0001" := by
      rw [htipo]
      decide
    obtain ⟨m, rfl⟩ : ∃ m, max_intentos = m + 1 := ⟨max_intentos - 1, by omega⟩
    refine ⟨Caso.from_pydantic caso_data 1 2025 "PET-2025-0001", ?_, rfl, rfl, rfl, rfl, rfl⟩
    simp only [crear_nuevo_caso, crearIntentos]
    simp [hres0, hgen, hfmt]

/-- Witness for C7: the example petition against an empty store with
five attempts. -/
theorem claim_C7_estado_inicial_testigo :
    (casoCreateEjemplo.tipo = .PETICION ∧ casosDelTipoYAnio .PETICION 2025 [] = [] ∧
      (fun _ : Nat => ResultadoAlmacen.exito) 0 = .exito ∧ 1 ≤ 5) ∧
    ∃ c, (crear_nuevo_caso casoCreateEjemplo 2025 (fun _ => []) (fun _ => .exito)
        (fun _ => 0) 5).resultado = .creado c ∧
      c.numero_caso_completo = "PET-2025-0001" ∧ c.numero_caso = 1 ∧ c.anio = 2025 ∧
      c.estado = .RECIBIDO ∧ c.respuesta = none :=
  ⟨⟨rfl, rfl, rfl, by norm_num⟩,
    (claim_C7_estado_inicial casoCreateEjemplo 2025 (fun _ => []) (fun _ => .exito)
        (fun _ => 0) 5).2 rfl rfl rfl rfl (by norm_num)⟩

/-! ## Uniqueness under concurrency

At the store, each creation attempt is one short transaction: the
insert commits iff no existing row carries the candidate's
`numero_caso_completo` — the unique index `idx_caso_numero_completo`
added by migration `e78cd4d5ef2d` (the `numero_caso` column of
`db_models.py` is likewise unique).  The generator's read runs in an
earlier, separate transaction, so a concurrent run interleaves attempts
whose candidates were computed from arbitrary — possibly stale —
snapshots of the table; only the constraint check sees the current
table.  Modelling the snapshot as arbitrary covers every real
interleaving. -/

/-- The unique-constraint-guarded insert; `none` models the
`IntegrityError` raised on a duplicate `numero_caso_completo`. -/
def insertarCaso (db : List Caso) (c : Caso) : Option (List Caso) :=
  if c.numero_caso_completo ∈ db.map (fun c0 => c0.numero_caso_completo) then none
  else some (db ++ [c])

/-- One attempt of a concurrent run: request `rid` computed its
candidate from snapshot `snap` and now tries the insert. -/
structure EventoConc where
  rid : Nat
  snap : List Caso
  datos : CasoCreate

/-- Concurrent-run state: the table plus the requests that completed,
each with the row it persisted. -/
structure EstadoConc where
  db : List Caso
  completados : List (Nat × Caso)

/-- One interleaving step: recompute the candidate from the event's
snapshot (`generar_numero_caso`), format it, build the row, attempt the
insert; on a constraint violation the state is unchanged (that request
retries with a later event). -/
def pasoConc (anio_actual : Nat) (s : EstadoConc) (e : EventoConc) : EstadoConc :=
  let na := generar_numero_caso e.datos.tipo anio_actual e.snap
  let completo := formatear_numero_caso e.datos.tipo na.1 na.2
  let nuevo := Caso.from_pydantic e.datos na.1 na.2 completo
  match insertarCaso s.db nuevo with
  | some db2 => ⟨db2, s.completados ++ [(e.rid, nuevo)]⟩
  | none => s

/-- A whole interleaving of attempt events. -/
def ejecutarConc (anio_actual : Nat) (s0 : EstadoConc) (evs : List EventoConc) : EstadoConc :=
  evs.foldl (pasoConc anio_actual) s0

/-- Run invariant: the table's formatted numbers are pairwise distinct,
completed rows are in the table, completed formatted numbers are
pairwise distinct, and every completed row was built by the
Orchestrator: positive sequence number, the run's year and type, and a
Formatter-derived formatted number. -/
def InvConc (anio_actual : Nat) (tipo : TipoCaso) (s : EstadoConc) : Prop :=
  (s.db.map (fun c => c.numero_caso_completo)).Nodup ∧
  (∀ p ∈ s.completados,
    p.2.numero_caso_completo ∈ s.db.map (fun c => c.numero_caso_completo)) ∧
  (s.completados.map (fun p => p.2.numero_caso_completo)).Nodup ∧
  (∀ p ∈ s.completados, 0 < p.2.numero_caso ∧ p.2.anio = anio_actual ∧ p.2.tipo = tipo ∧
    p.2.numero_caso_completo = formatear_numero_caso tipo p.2.numero_caso anio_actual)

section ConcLemmas

theorem pasoConc_inv (anio_actual : Nat) (tipo : TipoCaso) (s : EstadoConc) (e : EventoConc)
    (he : e.datos.tipo = tipo) (hinv : InvConc anio_actual tipo s) :
    InvConc anio_actual tipo (pasoConc anio_actual s e) := by
  obtain ⟨h1, h2, h3, h4⟩ := hinv
  have key : ∀ num : Nat, 0 < num →
      InvConc anio_actual tipo
        (match insertarCaso s.db (Caso.from_pydantic e.datos num anio_actual
            (formatear_numero_caso e.datos.tipo num anio_actual)) with
          | some db2 => ⟨db2, s.completados ++ [(e.rid, Caso.from_pydantic e.datos num
              anio_actual (formatear_numero_caso e.datos.tipo num anio_actual))]⟩
          | none => s) := by
    intro num hnum
    by_cases hmem : (Caso.from_pydantic e.datos num anio_actual
        (formatear_numero_caso e.datos.tipo num anio_actual)).numero_caso_completo
        ∈ s.db.map (fun c0 => c0.numero_caso_completo)
    · rw [show insertarCaso s.db (Caso.from_pydantic e.datos num anio_actual
          (formatear_numero_caso e.datos.tipo num anio_actual)) = none from
          by rw [insertarCaso, if_pos hmem]]
      exact ⟨h1, h2, h3, h4⟩
    · rw [show insertarCaso s.db (Caso.from_pydantic e.datos num anio_actual
          (formatear_numero_caso e.datos.tipo num anio_actual))
          = some (s.db ++ [Caso.from_pydantic e.datos num anio_actual
            (formatear_numero_caso e.datos.tipo num anio_actual)]) from
          by rw [insertarCaso, if_neg hmem]]
      refine ⟨?_, ?_, ?_, ?_⟩
      · simp only [List.map_append, List.map_cons, List.map_nil]
        rw [List.nodup_append]
        refine ⟨h1, List.nodup_singleton _, ?_⟩
        intro a ha hb
        simp at hb
        subst hb
        exact hmem ha
      · intro p hp
        rcases List.mem_append.mp hp with hp | hp
        · have := h2 p hp
          simp only [List.map_append]
          exact List.mem_append_left _ this
        · simp at hp
          subst hp
          simp
      · simp only [List.map_append, List.map_cons, List.map_nil]
        rw [List.nodup_append]
        refine ⟨h3, List.nodup_singleton _, ?_⟩
        intro a ha hb
        simp at hb
        subst hb
        rcases List.mem_map.mp ha with ⟨p, hpmem, hpeq⟩
        exact hmem (hpeq ▸ h2 p hpmem)
      · intro p hp
        rcases List.mem_append.mp hp with hp | hp
        · exact h4 p hp
        · simp at hp
          subst hp
          refine ⟨hnum, rfl, he, ?_⟩
          show formatear_numero_caso e.datos.tipo num anio_actual
            = formatear_numero_caso tipo num anio_actual
          rw [he]
  exact key (generar_numero_caso e.datos.tipo anio_actual e.snap).1 (Nat.succ_pos _)

theorem ejecutarConc_inv (anio_actual : Nat) (tipo : TipoCaso) :
    ∀ (evs : List EventoConc) (s : EstadoConc), InvConc anio_actual tipo s →
      (∀ e ∈ evs, e.datos.tipo = tipo) →
      InvConc anio_actual tipo (ejecutarConc anio_actual s evs) := by
  intro evs
  induction evs with
  | nil => intro s hs _; exact hs
  | cons e evs ih =>
    intro s hs hevs
    exact ih (pasoConc anio_actual s e)
      (pasoConc_inv anio_actual tipo s e (hevs e (List.mem_cons_self e evs)) hs)
      (fun e2 he2 => hevs e2 (List.mem_cons_of_mem e he2))

end ConcLemmas

/-- **C1.** In any interleaving of concurrent creation attempts of the
same case type in the same year — candidates computed from arbitrary
(possibly stale) snapshots, inserts guarded only by the unique index on
the formatted number — the requests that complete persist pairwise
distinct formatted numbers, and their sequence numbers form a set of
pairwise distinct positive integers (one distinct value per completed
request, not necessarily contiguous). -/
theorem claim_C1_unicidad_concurrente (anio_actual : Nat) (tipo : TipoCaso)
    (evs : List EventoConc) (db0 : List Caso)
    (hdb0 : (db0.map (fun c => c.numero_caso_completo)).Nodup)
    (hevs : ∀ e ∈ evs, e.datos.tipo = tipo) :
    ((ejecutarConc anio_actual ⟨db0, []⟩ evs).completados.map
        (fun p => p.2.numero_caso_completo)).Nodup ∧
    (∀ p ∈ (ejecutarConc anio_actual ⟨db0, []⟩ evs).completados,
      0 < p.2.numero_caso ∧ p.2.tipo = tipo ∧ p.2.anio = anio_actual) ∧
    ((ejecutarConc anio_actual ⟨db0, []⟩ evs).completados.map
        (fun p => p.2.numero_caso)).Nodup := by
  have hinv0 : InvConc anio_actual tipo ⟨db0, []⟩ :=
    ⟨hdb0, by simp, by simp, by simp⟩
  obtain ⟨h1, h2, h3, h4⟩ := ejecutarConc_inv anio_actual tipo evs ⟨db0, []⟩ hinv0 hevs
  refine ⟨h3, ?_, ?_⟩
  · intro p hp
    obtain ⟨ha, hb, hc, _⟩ := h4 p hp
    exact ⟨ha, hc, hb⟩
  · have hcong : (ejecutarConc anio_actual ⟨db0, []⟩ evs).completados.map
        (fun p => p.2.numero_caso_completo)
        = (ejecutarConc anio_actual ⟨db0, []⟩ evs).completados.map
          (fun p => formatear_numero_caso tipo p.2.numero_caso anio_actual) :=
      List.map_congr_left (fun p hp => (h4 p hp).2.2.2)
    rw [hcong] at h3
    have hmapmap : (ejecutarConc anio_actual ⟨db0, []⟩ evs).completados.map
        (fun p => formatear_numero_caso tipo p.2.numero_caso anio_actual)
        = ((ejecutarConc anio_actual ⟨db0, []⟩ evs).completados.map
            (fun p => p.2.numero_caso)).map
          (fun x => formatear_numero_caso tipo x anio_actual) := by
      rw [List.map_map]
      rfl
    rw [hmapmap] at h3
    exact h3.of_map _

/-- Three interleaved attempt events: two requests race with the same
stale empty snapshot (both compute candidate 1, the second one's insert
collides), then the loser retries with a fresh snapshot. -/
def eventosTestigoC1 : List EventoConc :=
  [⟨1, [], casoCreateEjemplo⟩,
   ⟨2, [], casoCreateEjemplo⟩,
   ⟨2, [Caso.from_pydantic casoCreateEjemplo 1 2025
      (formatear_numero_caso .PETICION 1 2025)], casoCreateEjemplo⟩]

/-- Witness for C1: the racing run above ends with pairwise distinct
sequence numbers among the completed requests. -/
theorem claim_C1_unicidad_concurrente_testigo :
    ((([] : List Caso).map (fun c => c.numero_caso_completo)).Nodup ∧
      ∀ e ∈ eventosTestigoC1, e.datos.tipo = .PETICION) ∧
    ((ejecutarConc 2025 ⟨[], []⟩ eventosTestigoC1).completados.map
        (fun p => p.2.numero_caso)).Nodup :=
  ⟨⟨by simp, by intro e he; fin_cases he <;> rfl⟩,
    (claim_C1_unicidad_concurrente 2025 .PETICION eventosTestigoC1 [] (by simp)
      (by intro e he; fin_cases he <;> rfl)).2.2⟩

/-! ## Update — `app/services/caso.py`, `actualizar_caso_existente` -/

/-- `app/schemas/caso.py` — `CasoUpdate`: both fields optional; `None`
means "not provided". -/
structure CasoUpdate where
  estado : Option EstadoCaso
  respuesta : Option String
deriving DecidableEq, Repr

/-- The row mutations of `actualizar_caso_existente`: apply `estado` if
provided, `respuesta` if provided, and always refresh
`fecha_actualizacion` (`datetime.now()`, passed as `ahora`). -/
def aplicarActualizacion (c : Caso) (actualizacion : CasoUpdate) (ahora : Nat) : Caso :=
  let c1 := match actualizacion.estado with
    | some e => { c with estado := e }
    | none => c
  let c2 := match actualizacion.respuesta with
    | some r => { c1 with respuesta := some r }
    | none => c1
  { c2 with fecha_actualizacion := ahora }

/-- Persisting the mutation of the row that
`query(Caso).filter(Caso.id == caso_id).first()` returned: replace the
first matching row. -/
def actualizarPrimero (caso_id : Nat) (f : Caso → Caso) : List Caso → List Caso
  | [] => []
  | c :: resto =>
    if c.id = caso_id then f c :: resto else c :: actualizarPrimero caso_id f resto

/-- `actualizar_caso_existente(caso_id, actualizacion)`: look the case
up by id (404 when absent), apply only the provided fields, always
refresh `fecha_actualizacion`, commit, and return the updated case. -/
def actualizar_caso_existente (db : List Caso) (caso_id : Nat)
    (actualizacion : CasoUpdate) (ahora : Nat) : Except Nat (List Caso × Caso) :=
  match db.find? (fun c => c.id == caso_id) with
  | none => .error 404
  | some c =>
    .ok (actualizarPrimero caso_id (fun c0 => aplicarActualizacion c0 actualizacion ahora) db,
      aplicarActualizacion c actualizacion ahora)

/-- **C8.** On an existing case the update applies exactly the provided
fields: an absent `estado` leaves the status unchanged and an absent
`respuesta` leaves the response unchanged (and provided ones land as
given); every other field of the case is untouched; and
`fecha_actualizacion` is refreshed to `ahora` on every update,
whichever fields were provided. -/
theorem claim_C8_actualizacion_aislada (db : List Caso) (caso_id : Nat)
    (actualizacion : CasoUpdate) (ahora : Nat) (c : Caso)
    (hc : db.find? (fun c0 => c0.id == caso_id) = some c) :
    actualizar_caso_existente db caso_id actualizacion ahora
      = .ok (actualizarPrimero caso_id
          (fun c0 => aplicarActualizacion c0 actualizacion ahora) db,
        aplicarActualizacion c actualizacion ahora) ∧
    (actualizacion.estado = none →
      (aplicarActualizacion c actualizacion ahora).estado = c.estado) ∧
    (∀ e, actualizacion.estado = some e →
      (aplicarActualizacion c actualizacion ahora).estado = e) ∧
    (actualizacion.respuesta = none →
      (aplicarActualizacion c actualizacion ahora).respuesta = c.respuesta) ∧
    (∀ r, actualizacion.respuesta = some r →
      (aplicarActualizacion c actualizacion ahora).respuesta = some r) ∧
    (aplicarActualizacion c actualizacion ahora).fecha_actualizacion = ahora ∧
    (aplicarActualizacion c actualizacion ahora).id = c.id ∧
    (aplicarActualizacion c actualizacion ahora).numero_caso = c.numero_caso ∧
    (aplicarActualizacion c actualizacion ahora).anio = c.anio ∧
    (aplicarActualizacion c actualizacion ahora).numero_caso_completo
      = c.numero_caso_completo ∧
    (aplicarActualizacion c actualizacion ahora).tipo = c.tipo ∧
    (aplicarActualizacion c actualizacion ahora).asunto = c.asunto ∧
    (aplicarActualizacion c actualizacion ahora).descripcion = c.descripcion ∧
    (aplicarActualizacion c actualizacion ahora).nombre_solicitante
      = c.nombre_solicitante ∧
    (aplicarActualizacion c actualizacion ahora).email_solicitante
      = c.email_solicitante ∧
    (aplicarActualizacion c actualizacion ahora).telefono_solicitante
      = c.telefono_solicitante ∧
    (aplicarActualizacion c actualizacion ahora).fecha_creacion = c.fecha_creacion := by
  constructor
  · simp [actualizar_caso_existente, hc]
  · rcases hae : actualizacion.estado with _ | e <;>
      rcases har : actualizacion.respuesta with _ | r <;>
      simp [aplicarActualizacion, hae, har]

/-- Witness for C8: update only the status of a stored case; the
response survives and the timestamp refreshes. -/
theorem claim_C8_actualizacion_aislada_testigo :
    ([casoEjemplo .PETICION 1 2025].find? (fun c0 => c0.id == 1)
        = some (casoEjemplo .PETICION 1 2025)) ∧
    (aplicarActualizacion (casoEjemplo .PETICION 1 2025)
        ⟨some .EN_PROCESO, none⟩ 99).respuesta = (casoEjemplo .PETICION 1 2025).respuesta ∧
    (aplicarActualizacion (casoEjemplo .PETICION 1 2025)
        ⟨some .EN_PROCESO, none⟩ 99).fecha_actualizacion = 99 := by
  have h := claim_C8_actualizacion_aislada [casoEjemplo .PETICION 1 2025] 1
    ⟨some .EN_PROCESO, none⟩ 99 (casoEjemplo .PETICION 1 2025) (by decide)
  exact ⟨by decide, h.2.2.2.1 rfl, h.2.2.2.2.2.1⟩

/-! ## Lookup normalisation — `app/services/caso.py`,
`buscar_caso_por_numero_completo` and `buscar_casos_por_patron_numero` -/

/-- Python's `str.strip()` whitespace class (its ASCII part; case
numbers and search patterns stay in ASCII). -/
def esEspacio (c : Char) : Bool :=
  c = ' ' || c = '\t' || c = '\n' || c = '\r' || c = '\x0b' || c = '\x0c'

/-- `str.strip()` on a character list: drop leading and trailing
whitespace. -/
def recortarLista (l : List Char) : List Char :=
  ((l.dropWhile esEspacio).reverse.dropWhile esEspacio).reverse

/-- Python `s.strip()`. -/
def recortar (s : String) : String :=
  String.mk (recortarLista s.toList)

/-- Python `s.upper()` (basic latin letters, as `Char.toUpper`). -/
def aMayusculas (s : String) : String :=
  String.mk (s.toList.map Char.toUpper)

/-- The normalisation both search functions perform on their input:
`numero_caso_completo.strip().upper()` / `patron.strip().upper()`. -/
def normalizarNumero (s : String) : String :=
  aMayusculas (recortar s)

/-- `order_by(Caso.fecha_creacion.desc())`: most recent first. -/
def ordenarPorFechaDesc (l : List Caso) : List Caso :=
  l.mergeSort (fun a b => decide (b.fecha_creacion ≤ a.fecha_creacion))

/-- `buscar_caso_por_numero_completo(numero_caso_completo)`: HTTP 400 on
blank input, else a unique-index lookup of the normalised number,
HTTP 404 on a miss. -/
def buscar_caso_por_numero_completo (db : List Caso) (numero_caso_completo : String) :
    Except Nat Caso :=
  if (recortar numero_caso_completo).toList.length = 0 then .error 400
  else
    match db.find? (fun c =>
        c.numero_caso_completo == normalizarNumero numero_caso_completo) with
    | none => .error 404
    | some c => .ok c

/-- `buscar_casos_por_patron_numero(patron, limite=50)`: HTTP 400 on a
blank pattern, else the `LIKE %patron%` filter on the normalised
pattern, most recent first, first `limite` rows. -/
def buscar_casos_por_patron_numero (db : List Caso) (patron : String) (limite : Nat) :
    Except Nat (List Caso) :=
  if (recortar patron).toList.length = 0 then .error 400
  else
    .ok ((ordenarPorFechaDesc (db.filter (fun c =>
      contieneSubcadena c.numero_caso_completo (normalizarNumero patron)))).take limite)

section NormalizacionLemmas

theorem char_toNat_ofNat {n : Nat} (h : n < 55296) : (Char.ofNat n).toNat = n := by
  unfold Char.ofNat
  rw [dif_pos (Or.inl h)]
  rfl

/-- Uppercasing is idempotent. -/
theorem toUpper_idem (c : Char) : c.toUpper.toUpper = c.toUpper := by
  unfold Char.toUpper
  by_cases h : c.toNat ≥ 97 ∧ c.toNat ≤ 122
  · rw [if_pos h]
    have hv : (Char.ofNat (c.toNat - 32)).toNat = c.toNat - 32 :=
      char_toNat_ofNat (by omega)
    rw [if_neg (by omega)]
  · rw [if_neg h, if_neg h]

theorem esEspacio_toNat (c : Char) (h : esEspacio c = true) : c.toNat ≤ 32 := by
  simp [esEspacio] at h
  rcases h with ((((h | h) | h) | h) | h) | h <;> subst h <;> decide

/-- Uppercasing neither creates nor destroys whitespace. -/
theorem esEspacio_toUpper (c : Char) : esEspacio c.toUpper = esEspacio c := by
  unfold Char.toUpper
  by_cases h : c.toNat ≥ 97 ∧ c.toNat ≤ 122
  · rw [if_pos h]
    have hv : (Char.ofNat (c.toNat - 32)).toNat = c.toNat - 32 :=
      char_toNat_ofNat (by omega)
    have h1 : esEspacio (Char.ofNat (c.toNat - 32)) = false := by
      cases hq : esEspacio (Char.ofNat (c.toNat - 32))
      · rfl
      · have := esEspacio_toNat _ hq
        omega
    have h2 : esEspacio c = false := by
      cases hq : esEspacio c
      · rfl
      · have := esEspacio_toNat _ hq
        omega
    rw [h1, h2]
  · rw [if_neg h]

theorem dropWhile_map {p : Char → Bool} {f : Char → Char}
    (hpf : ∀ c, p (f c) = p c) : ∀ l : List Char,
    (l.map f).dropWhile p = (l.dropWhile p).map f := by
  intro l
  induction l with
  | nil => rfl
  | cons c t ih =>
    simp only [List.map_cons, List.dropWhile_cons, hpf c]
    by_cases hc : p c = true
    · simp [hc, ih]
    · simp [hc]

theorem dropWhile_idem (p : Char → Bool) : ∀ l : List Char,
    (l.dropWhile p).dropWhile p = l.dropWhile p := by
  intro l
  induction l with
  | nil => rfl
  | cons c t ih =>
    by_cases hc : p c = true
    · simp [List.dropWhile_cons, hc, ih]
    · simp [List.dropWhile_cons, hc]

/-- Stripping leaves a prefix of the leading-stripped list. -/
theorem recortarLista_cola (l : List Char) :
    ∃ t, l.dropWhile esEspacio = recortarLista l ++ t := by
  refine ⟨((l.dropWhile esEspacio).reverse.takeWhile esEspacio).reverse, ?_⟩
  unfold recortarLista
  conv_lhs => rw [← List.reverse_reverse (l.dropWhile esEspacio)]
  rw [← List.takeWhile_append_dropWhile esEspacio ((l.dropWhile esEspacio).reverse)]
  rw [List.reverse_append]
  rw [List.takeWhile_append_dropWhile]

theorem recortarLista_sin_espacio_inicial (l : List Char) :
    (recortarLista l).dropWhile esEspacio = recortarLista l := by
  cases hR : recortarLista l with
  | nil => rfl
  | cons c t =>
    obtain ⟨u, hu⟩ := recortarLista_cola l
    rw [hR] at hu
    have hidem := dropWhile_idem esEspacio l
    rw [hu] at hidem
    rw [List.cons_append] at hidem
    have hc : esEspacio c = false := by
      by_contra hq
      simp only [Bool.not_eq_false] at hq
      rw [List.dropWhile_cons_of_pos hq] at hidem
      have hlen : (List.dropWhile esEspacio (t ++ u)).length ≤ (t ++ u).length :=
        (List.dropWhile_sublist esEspacio).length_le
      rw [hidem] at hlen
      simp only [List.length_cons] at hlen
      omega
    rw [List.dropWhile_cons_of_neg (by simp [hc])]

/-- Stripping is idempotent. -/
theorem recortarLista_idem (l : List Char) :
    recortarLista (recortarLista l) = recortarLista l := by
  conv_lhs => rw [recortarLista, recortarLista_sin_espacio_inicial l]
  rw [show (recortarLista l).reverse
      = (l.dropWhile esEspacio).reverse.dropWhile esEspacio from by
    rw [recortarLista, List.reverse_reverse]]
  rw [dropWhile_idem, ← recortarLista]

/-- Stripping commutes with uppercasing. -/
theorem recortarLista_map (l : List Char) :
    recortarLista (l.map Char.toUpper) = (recortarLista l).map Char.toUpper := by
  unfold recortarLista
  rw [dropWhile_map esEspacio_toUpper, ← List.map_reverse,
    dropWhile_map esEspacio_toUpper, ← List.map_reverse]

theorem mapToUpper_idem (l : List Char) :
    (l.map Char.toUpper).map Char.toUpper = l.map Char.toUpper := by
  rw [List.map_map]
  exact List.map_congr_left (fun c _ => toUpper_idem c)

end NormalizacionLemmas

/-- **C9.** Lookup by formatted number is insensitive to surrounding
whitespace and letter case: for every input `w` both
`buscar_caso_por_numero_completo` and `buscar_casos_por_patron_numero`
return the same result on `w` as on `w.strip().upper()`, because both
normalise their input with strip + upper before use. -/
theorem claim_C9_busqueda_normalizada (db : List Caso) (w : String) (limite : Nat) :
    buscar_caso_por_numero_completo db w
      = buscar_caso_por_numero_completo db (aMayusculas (recortar w)) ∧
    buscar_casos_por_patron_numero db w limite
      = buscar_casos_por_patron_numero db (aMayusculas (recortar w)) limite := by
  have hRR : recortarLista (List.map Char.toUpper (recortarLista w.toList))
      = List.map Char.toUpper (recortarLista w.toList) := by
    rw [recortarLista_map, recortarLista_idem]
  have hrec : recortar (aMayusculas (recortar w))
      = String.mk (List.map Char.toUpper (recortarLista w.toList)) :=
    congrArg String.mk hRR
  have hnorm : normalizarNumero (aMayusculas (recortar w)) = normalizarNumero w := by
    show aMayusculas (recortar (aMayusculas (recortar w))) = aMayusculas (recortar w)
    rw [hrec]
    exact congrArg String.mk (mapToUpper_idem _)
  have hlen : (recortar (aMayusculas (recortar w))).toList.length
      = (recortar w).toList.length := by
    rw [hrec]
    show (List.map Char.toUpper (recortarLista w.toList)).length
      = (recortarLista w.toList).length
    rw [List.length_map]
  constructor
  · unfold buscar_caso_por_numero_completo
    rw [hnorm, hlen]
  · unfold buscar_casos_por_patron_numero
    rw [hnorm, hlen]

/-- Witness for C2: an empty (PETICION, 2025) bucket yields sequence
number 1. -/
theorem claim_C2_generar_max_mas_uno_testigo :
    casosDelTipoYAnio .PETICION 2025 ([] : List Caso) = [] ∧
    generar_numero_caso .PETICION 2025 [] = (1, 2025) :=
  ⟨rfl, (claim_C2_generar_max_mas_uno .PETICION 2025 []).2.1 rfl⟩
